import Mathlib

/-!
Shallow embedding of the Code Duel backend (src/server.js): the battle engine
(`GameEngine.processActions` / `GameEngine.executeAction`), the game store, and
the action-submission route handler. JS numbers holding integer game quantities
are modelled as `Int`; `Math.max`/`Math.min` become `max`/`min`;
`Math.floor(d * 0.5)` on a positive integer `d` becomes `d / 2` (integer
division, which is floor for nonnegative operands). Mutation of the game object
is modelled by returning the updated game.
-/

namespace CodeDuel

/-- A player record, as created in `GameEngine.createNewGame`. -/
structure Player where
  id : String
  name : String
  hp : Int
  maxHp : Int
  energy : Int
  maxEnergy : Int
  charged : Bool
  status : String
  deriving Repr, DecidableEq

/-- Per-player entry of the `battleResult` object built in `processActions`,
including the transient `defending` flag (deleted before the response). -/
structure PlayerResult where
  damage : Int
  energyChange : Int
  statusChange : Option String
  defending : Bool
  deriving Repr, DecidableEq

/-- Per-player battle-result entry after `delete battleResult.playerN.defending`. -/
structure PlayerResultOut where
  damage : Int
  energyChange : Int
  statusChange : Option String
  deriving Repr, DecidableEq

/-- The `battleResult` value returned by `processActions` (after the
`defending` flags are deleted); `messages` is initialised to `[]` and never
appended to by the code. -/
structure BattleResult where
  player1 : PlayerResultOut
  player2 : PlayerResultOut
  messages : List String
  deriving Repr, DecidableEq

/-- One entry of `game.battleLog`, as pushed by `processActions`. -/
structure LogEntry where
  round : Int
  action1 : String
  action2 : String
  result1 : PlayerResultOut
  result2 : PlayerResultOut
  finalHp1 : Int
  finalHp2 : Int
  deriving Repr, DecidableEq

/-- The game entity stored in the `games` map. `lastAction1`/`lastAction2`
model `game.lastActions.player1`/`.player2` (initially `null`). -/
structure Game where
  id : String
  player1 : Player
  player2 : Player
  currentTurn : String
  round : Int
  gameStatus : String
  winner : Option String
  lastAction1 : Option String
  lastAction2 : Option String
  battleLog : List LogEntry
  deriving Repr, DecidableEq

/-- Result of one `executeAction` call: the (possibly mutated) attacker and the
two (possibly mutated) battle-result entries. -/
structure ExecOut where
  attacker : Player
  aRes : PlayerResult
  dRes : PlayerResult
  deriving Repr, DecidableEq

/-- The initial per-player battle-result entry
`{ damage: 0, energyChange: 0, statusChange: null, defending: false }`. -/
def initResult : PlayerResult :=
  { damage := 0, energyChange := 0, statusChange := none, defending := false }

/-- `GameEngine.executeAction(attacker, defender, action, attackerResult,
defenderResult, attackerName)`. The `defender` argument is accepted but never
read by the source; `attackerName` only feeds log strings and is omitted. -/
def executeAction (attacker _defender : Player) (action : String)
    (attackerResult defenderResult : PlayerResult) : ExecOut :=
  if action = "attack" then
    if attacker.energy ≥ 1 then
      { attacker := { attacker with charged := false },
        aRes := { attackerResult with
                    energyChange := -1,
                    statusChange := some (if attacker.charged then
                      "Charged attack!" else "Normal attack!") },
        dRes := { defenderResult with
                    damage := if attacker.charged then 25 else 15 } }
    else
      { attacker := attacker,
        aRes := { attackerResult with statusChange := some "Not enough energy!" },
        dRes := defenderResult }
  else if action = "defend" then
    { attacker := attacker,
      aRes := { attackerResult with
                  energyChange := 1,
                  statusChange := some "Defending!",
                  defending := true },
      dRes := defenderResult }
  else if action = "charge" then
    if attacker.energy ≥ 2 then
      { attacker := { attacker with charged := true },
        aRes := { attackerResult with
                    energyChange := -2,
                    statusChange := some "Charged up for next attack!" },
        dRes := defenderResult }
    else
      { attacker := attacker,
        aRes := { attackerResult with
                    statusChange := some "Not enough energy to charge!" },
        dRes := defenderResult }
  else
    { attacker := attacker,
      aRes := { attackerResult with statusChange := some "Invalid action!" },
      dRes := defenderResult }

/-- The defense-reduction step of `processActions`:
`if (r.defending && r.damage > 0) r.damage = Math.floor(r.damage * 0.5)`. -/
def applyDefense (r : PlayerResult) : PlayerResult :=
  if r.defending ∧ r.damage > 0 then { r with damage := r.damage / 2 } else r

/-- `p.hp = Math.max(0, p.hp - damage)`. -/
def applyHp (p : Player) (damage : Int) : Player :=
  { p with hp := max 0 (p.hp - damage) }

/-- `p.energy = Math.min(p.maxEnergy, Math.max(0, p.energy + energyChange))`. -/
def applyEnergy (p : Player) (energyChange : Int) : Player :=
  { p with energy := min p.maxEnergy (max 0 (p.energy + energyChange)) }

/-- Dropping the transient `defending` flag
(`delete battleResult.playerN.defending`). -/
def strip (r : PlayerResult) : PlayerResultOut :=
  { damage := r.damage, energyChange := r.energyChange,
    statusChange := r.statusChange }

/-- The tail of `processActions` after both `executeAction` calls: given the
two (possibly charge-updated) players and the two final battle-result entries
(`res1` for player1, `res2` for player2), halve staged damage of defenders,
apply HP then energy clamps, strip the `defending` flags, append the log
entry, run the game-end check, and increment the round. -/
def finishRound (game : Game) (player1Action player2Action : String)
    (p1x p2x : Player) (res1 res2 : PlayerResult) : Game × BattleResult :=
  let r1 := applyDefense res1
  let r2 := applyDefense res2
  let p1 := applyEnergy (applyHp p1x r1.damage) r1.energyChange
  let p2 := applyEnergy (applyHp p2x r2.damage) r2.energyChange
  let out1 := strip r1
  let out2 := strip r2
  let entry : LogEntry :=
    { round := game.round, action1 := player1Action, action2 := player2Action,
      result1 := out1, result2 := out2, finalHp1 := p1.hp, finalHp2 := p2.hp }
  let newStatus := if p1.hp ≤ 0 ∨ p2.hp ≤ 0 then "finished" else game.gameStatus
  let newWinner :=
    if p1.hp ≤ 0 ∨ p2.hp ≤ 0 then
      if p1.hp ≤ 0 ∧ p2.hp ≤ 0 then some "tie"
      else if p1.hp ≤ 0 then some "player2"
      else some "player1"
    else game.winner
  ({ game with
      player1 := p1, player2 := p2,
      lastAction1 := some player1Action, lastAction2 := some player2Action,
      battleLog := game.battleLog ++ [entry],
      gameStatus := newStatus, winner := newWinner,
      round := game.round + 1 },
   { player1 := out1, player2 := out2, messages := [] })

/-- `GameEngine.processActions(game, player1Action, player2Action)`: resolves
one round in the source's order — execute player1's action, then player2's
(each call receiving the current battle-result entries), then the shared tail
`finishRound` — and returns the updated game together with the returned
`battleResult`. -/
def processActions (game : Game) (player1Action player2Action : String) :
    Game × BattleResult :=
  let e1 := executeAction game.player1 game.player2 player1Action
              initResult initResult
  let e2 := executeAction game.player2 game.player1 player2Action
              e1.dRes e1.aRes
  finishRound game player1Action player2Action
    e1.attacker e2.attacker e2.dRes e2.aRes

/-- A fresh player as built by `GameEngine.createNewGame`. -/
def initialPlayer (pid pname : String) : Player :=
  { id := pid, name := pname, hp := 100, maxHp := 100, energy := 3,
    maxEnergy := 5, charged := false, status := "active" }

/-- `GameEngine.createNewGame(gameId)` (without the map registration). -/
def createNewGame (gameId : String) : Game :=
  { id := gameId,
    player1 := initialPlayer "player1" "Player 1",
    player2 := initialPlayer "player2" "Player 2",
    currentTurn := "player1", round := 1, gameStatus := "active",
    winner := none, lastAction1 := none, lastAction2 := none, battleLog := [] }

/-- The route handler's `validActions = ['attack', 'defend', 'charge']`. -/
def validActions : List String := ["attack", "defend", "charge"]

/-- JS falsiness of a possibly-missing string value, as tested by
`!player1Action`: `undefined`/absent and the empty string are falsy. -/
def isFalsy : Option String → Bool
  | none => true
  | some s => s = ""

/-- Outcome of the `POST /api/game/:gameId/actions` handler, abstracting the
HTTP responses: 404 unknown game, 400 inactive game, 400 missing action,
400 invalid action, or 200 with the updated game and battle result. -/
inductive SubmitResult where
  | notFound
  | gameNotActive
  | missingActions
  | invalidAction
  | ok (game : Game) (result : BattleResult)
  deriving Repr, DecidableEq

/-- Replacing a game in the store (the source mutates the entry in place). -/
def setGame : List (String × Game) → String → Game → List (String × Game)
  | [], gid, g => [(gid, g)]
  | (k, v) :: rest, gid, g =>
      if k = gid then (gid, g) :: rest else (k, v) :: setGame rest gid g

/-- The `POST /api/game/:gameId/actions` handler over a store of games:
look up the game, reject if missing / not active / an action missing (falsy) /
an action outside the enum, otherwise run `processActions`. Returns the
outcome and the resulting store. -/
def submitActions (games : List (String × Game)) (gameId : String)
    (player1Action player2Action : Option String) :
    SubmitResult × List (String × Game) :=
  match games.lookup gameId with
  | none => (.notFound, games)
  | some game =>
    if game.gameStatus ≠ "active" then (.gameNotActive, games)
    else if isFalsy player1Action || isFalsy player2Action then
      (.missingActions, games)
    else
      let a1 := player1Action.getD ""
      let a2 := player2Action.getD ""
      if a1 ∉ validActions ∨ a2 ∉ validActions then (.invalidAction, games)
      else
        let gb := processActions game a1 a2
        (.ok gb.1 gb.2, setGame games gameId gb.1)

/-- Damage staged against the defender by one action in isolation (the
`defenderResult.damage` field `executeAction` produces from fresh result
entries). -/
def stagedDamage (attacker defender : Player) (action : String) : Int :=
  (executeAction attacker defender action initResult initResult).dRes.damage

/-- Reference variant of `processActions` that resolves player2's action
before player1's, used to state that round resolution is simultaneous
(order-independent), as §4.2 of the spec describes. Every other step is
identical to `processActions`. -/
def processActionsSwapped (game : Game) (player1Action player2Action : String) :
    Game × BattleResult :=
  let e2 := executeAction game.player2 game.player1 player2Action
              initResult initResult
  let e1 := executeAction game.player1 game.player2 player1Action
              e2.dRes e2.aRes
  finishRound game player1Action player2Action
    e1.attacker e2.attacker e1.aRes e1.dRes

/-- A game one normal attack away from finishing: player2 has 10 HP left. -/
def nearDeathGame : Game :=
  { createNewGame "game_1" with
      player2 := { initialPlayer "player2" "Player 2" with hp := 10 } }

/-! ## Helper lemmas -/

/-- `executeAction` never touches the attacker's HP. -/
lemma executeAction_attacker_hp (a d : Player) (act : String)
    (ar dr : PlayerResult) : (executeAction a d act ar dr).attacker.hp = a.hp := by
  unfold executeAction
  split_ifs <;> rfl

/-- `executeAction` keeps both damage fields nonnegative. -/
lemma executeAction_damage_nonneg (a d : Player) (act : String)
    (ar dr : PlayerResult) (h1 : 0 ≤ ar.damage) (h2 : 0 ≤ dr.damage) :
    0 ≤ (executeAction a d act ar dr).aRes.damage ∧
    0 ≤ (executeAction a d act ar dr).dRes.damage := by
  unfold executeAction
  split_ifs <;> constructor <;> simp_all

/-- Defense halving keeps damage nonnegative. -/
lemma applyDefense_damage_nonneg (r : PlayerResult) (h : 0 ≤ r.damage) :
    0 ≤ (applyDefense r).damage := by
  unfold applyDefense
  split_ifs with hc
  · show 0 ≤ r.damage / 2
    omega
  · exact h

/-- The attacker output of `executeAction` does not depend on the incoming
battle-result entries. -/
lemma executeAction_attacker_indep (a d : Player) (act : String)
    (ar dr ar' dr' : PlayerResult) :
    (executeAction a d act ar dr).attacker =
    (executeAction a d act ar' dr').attacker := by
  unfold executeAction
  split_ifs <;> rfl

/-- The attacker-result output of `executeAction` does not depend on the
incoming defender-result entry. -/
lemma executeAction_aRes_indep (a d : Player) (act : String)
    (ar dr dr' : PlayerResult) :
    (executeAction a d act ar dr).aRes = (executeAction a d act ar dr').aRes := by
  unfold executeAction
  split_ifs <;> rfl

/-- `executeAction` only ever writes the `damage` field of the defender's
entry, and only on a successful attack. -/
lemma executeAction_dRes (a d : Player) (act : String) (ar dr : PlayerResult) :
    (executeAction a d act ar dr).dRes =
      if act = "attack" ∧ a.energy ≥ 1 then
        { dr with damage := if a.charged then 25 else 15 }
      else dr := by
  unfold executeAction
  split_ifs <;> first | rfl | tauto

/-- `executeAction` never writes the `damage` field of the attacker's own
entry: setting it beforehand commutes with the action. -/
lemma executeAction_aRes_damage_set (a d : Player) (act : String)
    (ar dr : PlayerResult) (x : Int) :
    (executeAction a d act { ar with damage := x } dr).aRes =
    { (executeAction a d act ar dr).aRes with damage := x } := by
  unfold executeAction
  split_ifs <;> rfl

/-- Cross-independence of the two `executeAction` calls of a round: the
damage one player's call stages into the other player's entry lands the same
whether that call runs first or second. -/
lemma executeAction_cross (A B : Player) (actA actB : String) :
    (executeAction B A actB (executeAction A B actA initResult initResult).dRes
        (executeAction A B actA initResult initResult).aRes).dRes =
    (executeAction A B actA (executeAction B A actB initResult initResult).dRes
        (executeAction B A actB initResult initResult).aRes).aRes := by
  simp only [executeAction_dRes]
  by_cases hb : actB = "attack" ∧ B.energy ≥ 1
  · rw [if_pos hb, if_pos hb,
      executeAction_aRes_damage_set A B actA initResult
        (executeAction B A actB initResult initResult).aRes
        (if B.charged then 25 else 15),
      executeAction_aRes_indep A B actA initResult
        (executeAction B A actB initResult initResult).aRes initResult]
  · rw [if_neg hb, if_neg hb,
      executeAction_aRes_indep A B actA initResult
        (executeAction B A actB initResult initResult).aRes initResult]

/-- `executeAction` never touches the attacker's HP, max HP, energy, or max
energy (only the `charged` flag can change). -/
lemma executeAction_attacker_fields (a d : Player) (act : String)
    (ar dr : PlayerResult) :
    (executeAction a d act ar dr).attacker.hp = a.hp ∧
    (executeAction a d act ar dr).attacker.maxHp = a.maxHp ∧
    (executeAction a d act ar dr).attacker.energy = a.energy ∧
    (executeAction a d act ar dr).attacker.maxEnergy = a.maxEnergy := by
  unfold executeAction
  split_ifs <;> exact ⟨rfl, rfl, rfl, rfl⟩

/-- `executeAction` never touches the attacker's energy (energy deltas are
staged in the battle result and applied later). -/
lemma executeAction_attacker_energy (a d : Player) (act : String)
    (ar dr : PlayerResult) :
    (executeAction a d act ar dr).attacker.energy = a.energy := by
  unfold executeAction
  split_ifs <;> rfl

/-- `executeAction` never touches the attacker's max energy. -/
lemma executeAction_attacker_maxEnergy (a d : Player) (act : String)
    (ar dr : PlayerResult) :
    (executeAction a d act ar dr).attacker.maxEnergy = a.maxEnergy := by
  unfold executeAction
  split_ifs <;> rfl

/-- `executeAction` never touches the attacker's max HP. -/
lemma executeAction_attacker_maxHp (a d : Player) (act : String)
    (ar dr : PlayerResult) :
    (executeAction a d act ar dr).attacker.maxHp = a.maxHp := by
  unfold executeAction
  split_ifs <;> rfl

/-- The attacker's `charged` flag after `executeAction`, by cases on the
action. -/
lemma executeAction_attacker_charged (a d : Player) (act : String)
    (ar dr : PlayerResult) :
    (executeAction a d act ar dr).attacker.charged =
      if act = "attack" then (if a.energy ≥ 1 then false else a.charged)
      else if act = "defend" then a.charged
      else if act = "charge" then (if a.energy ≥ 2 then true else a.charged)
      else a.charged := by
  unfold executeAction
  split_ifs <;> rfl

/-- `executeAction` never writes the attacker entry's `damage` field. -/
lemma executeAction_aRes_damage (a d : Player) (act : String)
    (ar dr : PlayerResult) :
    (executeAction a d act ar dr).aRes.damage = ar.damage := by
  unfold executeAction
  split_ifs <;> rfl

/-- The attacker entry's `energyChange` after `executeAction`, by cases on
the action. -/
lemma executeAction_aRes_energyChange (a d : Player) (act : String)
    (ar dr : PlayerResult) :
    (executeAction a d act ar dr).aRes.energyChange =
      if act = "attack" then (if a.energy ≥ 1 then -1 else ar.energyChange)
      else if act = "defend" then 1
      else if act = "charge" then (if a.energy ≥ 2 then -2 else ar.energyChange)
      else ar.energyChange := by
  unfold executeAction
  split_ifs <;> rfl

/-- The attacker entry's `statusChange` after `executeAction`, by cases on
the action. -/
lemma executeAction_aRes_statusChange (a d : Player) (act : String)
    (ar dr : PlayerResult) :
    (executeAction a d act ar dr).aRes.statusChange =
      if act = "attack" then
        (if a.energy ≥ 1 then
          some (if a.charged then "Charged attack!" else "Normal attack!")
        else some "Not enough energy!")
      else if act = "defend" then some "Defending!"
      else if act = "charge" then
        (if a.energy ≥ 2 then some "Charged up for next attack!"
        else some "Not enough energy to charge!")
      else some "Invalid action!" := by
  unfold executeAction
  split_ifs <;> rfl

/-- The attacker entry's `defending` flag after `executeAction`: set exactly
by `defend`, otherwise passed through. -/
lemma executeAction_aRes_defending (a d : Player) (act : String)
    (ar dr : PlayerResult) :
    (executeAction a d act ar dr).aRes.defending =
      if act = "attack" then ar.defending
      else if act = "defend" then true
      else ar.defending := by
  unfold executeAction
  split_ifs <;> rfl

/-- Defense halving of the `damage` field, spelled as a field equation. -/
lemma applyDefense_damage (r : PlayerResult) :
    (applyDefense r).damage =
      if r.defending ∧ r.damage > 0 then r.damage / 2 else r.damage := by
  unfold applyDefense
  split_ifs <;> rfl

/-- Defense halving never touches the `energyChange` field. -/
lemma applyDefense_energyChange (r : PlayerResult) :
    (applyDefense r).energyChange = r.energyChange := by
  unfold applyDefense
  split_ifs <;> rfl

/-- Defense halving never touches the `statusChange` field. -/
lemma applyDefense_statusChange (r : PlayerResult) :
    (applyDefense r).statusChange = r.statusChange := by
  unfold applyDefense
  split_ifs <;> rfl

/-- The final game status is computed from the post-round HPs exactly as the
source's game-end check does. -/
lemma processActions_gameStatus (g : Game) (a1 a2 : String) :
    (processActions g a1 a2).1.gameStatus =
      if (processActions g a1 a2).1.player1.hp ≤ 0 ∨
         (processActions g a1 a2).1.player2.hp ≤ 0
      then "finished" else g.gameStatus := rfl

/-- The final winner is computed from the post-round HPs exactly as the
source's game-end check does. -/
lemma processActions_winner (g : Game) (a1 a2 : String) :
    (processActions g a1 a2).1.winner =
      if (processActions g a1 a2).1.player1.hp ≤ 0 ∨
         (processActions g a1 a2).1.player2.hp ≤ 0 then
        if (processActions g a1 a2).1.player1.hp ≤ 0 ∧
           (processActions g a1 a2).1.player2.hp ≤ 0 then some "tie"
        else if (processActions g a1 a2).1.player1.hp ≤ 0 then some "player2"
        else some "player1"
      else g.winner := rfl

/-! ## Claim theorems -/

/-- C1 counterexample: on a game where player2 has 10 HP, a round of mutual
normal attacks finishes the game, yet the round counter still increments from
1 to 2 — refuting "the round counter does not increment" when the game becomes
finished. -/
theorem round_increments_even_when_finished :
    (processActions nearDeathGame "attack" "attack").1.gameStatus = "finished" ∧
    nearDeathGame.round = 1 ∧
    (processActions nearDeathGame "attack" "attack").1.round = 2 := by
  decide

/-- C1 (amended): `processActions` increments the round counter by exactly 1
after every resolution, whether or not the game becomes finished. -/
theorem round_always_increments (g : Game) (a1 a2 : String) :
    (processActions g a1 a2).1.round = g.round + 1 := rfl

/-- C8: round resolution is simultaneous — resolving player1's action before
player2's yields exactly the same final game state and battle result as
resolving them in the opposite order. -/
theorem resolution_order_irrelevant (g : Game) (a1 a2 : String) :
    processActions g a1 a2 = processActionsSwapped g a1 a2 := by
  have hA1 : (executeAction g.player1 g.player2 a1 initResult initResult).attacker
      = (executeAction g.player1 g.player2 a1
          (executeAction g.player2 g.player1 a2 initResult initResult).dRes
          (executeAction g.player2 g.player1 a2 initResult initResult).aRes).attacker :=
    executeAction_attacker_indep g.player1 g.player2 a1 initResult initResult _ _
  have hA2 : (executeAction g.player2 g.player1 a2
          (executeAction g.player1 g.player2 a1 initResult initResult).dRes
          (executeAction g.player1 g.player2 a1 initResult initResult).aRes).attacker
      = (executeAction g.player2 g.player1 a2 initResult initResult).attacker :=
    executeAction_attacker_indep g.player2 g.player1 a2 _ _ initResult initResult
  have hC := executeAction_cross g.player1 g.player2 a1 a2
  have hD := (executeAction_cross g.player2 g.player1 a2 a1).symm
  simp only [processActions, processActionsSwapped]
  rw [hA1, hA2, hC, hD]

/-- C3: after a round on an active game, the status is finished iff at least
one player's HP is ≤ 0; the winner is tie when both are ≤ 0, otherwise the
unique player whose HP stayed > 0; and if both stay > 0 the status stays
active. -/
theorem termination_and_winner (g : Game) (a1 a2 : String)
    (hactive : g.gameStatus = "active") :
    ((processActions g a1 a2).1.gameStatus = "finished" ↔
      ((processActions g a1 a2).1.player1.hp ≤ 0 ∨
       (processActions g a1 a2).1.player2.hp ≤ 0)) ∧
    ((processActions g a1 a2).1.player1.hp ≤ 0 ∧
       (processActions g a1 a2).1.player2.hp ≤ 0 →
       (processActions g a1 a2).1.winner = some "tie") ∧
    ((processActions g a1 a2).1.player1.hp ≤ 0 ∧
       0 < (processActions g a1 a2).1.player2.hp →
       (processActions g a1 a2).1.winner = some "player2") ∧
    (0 < (processActions g a1 a2).1.player1.hp ∧
       (processActions g a1 a2).1.player2.hp ≤ 0 →
       (processActions g a1 a2).1.winner = some "player1") ∧
    (0 < (processActions g a1 a2).1.player1.hp ∧
       0 < (processActions g a1 a2).1.player2.hp →
       (processActions g a1 a2).1.gameStatus = "active") := by
  rw [processActions_gameStatus g a1 a2, processActions_winner g a1 a2, hactive]
  generalize (processActions g a1 a2).1.player1.hp = X
  generalize (processActions g a1 a2).1.player2.hp = Y
  split_ifs <;> simp_all

/-- C3 witness: on an active game where player2 has 10 HP, mutual attacks
finish the game with winner player1, matching the characterization. -/
theorem termination_and_winner_witness :
    ((processActions nearDeathGame "attack" "attack").1.gameStatus = "finished" ↔
      ((processActions nearDeathGame "attack" "attack").1.player1.hp ≤ 0 ∨
       (processActions nearDeathGame "attack" "attack").1.player2.hp ≤ 0)) ∧
    ((processActions nearDeathGame "attack" "attack").1.player1.hp ≤ 0 ∧
       (processActions nearDeathGame "attack" "attack").1.player2.hp ≤ 0 →
       (processActions nearDeathGame "attack" "attack").1.winner = some "tie") ∧
    ((processActions nearDeathGame "attack" "attack").1.player1.hp ≤ 0 ∧
       0 < (processActions nearDeathGame "attack" "attack").1.player2.hp →
       (processActions nearDeathGame "attack" "attack").1.winner = some "player2") ∧
    (0 < (processActions nearDeathGame "attack" "attack").1.player1.hp ∧
       (processActions nearDeathGame "attack" "attack").1.player2.hp ≤ 0 →
       (processActions nearDeathGame "attack" "attack").1.winner = some "player1") ∧
    (0 < (processActions nearDeathGame "attack" "attack").1.player1.hp ∧
       0 < (processActions nearDeathGame "attack" "attack").1.player2.hp →
       (processActions nearDeathGame "attack" "attack").1.gameStatus = "active") :=
  termination_and_winner nearDeathGame "attack" "attack" rfl

/-- C4: with valid actions and both players within the HP/energy bounds
(maxHp = 100, maxEnergy = 5) before the round, both players' HP and energy
stay within the bounds after the round. -/
theorem resource_bounds (g : Game) (a1 a2 : String)
    (_hv1 : a1 ∈ validActions) (_hv2 : a2 ∈ validActions)
    (_hM1 : g.player1.maxHp = 100) (_hM2 : g.player2.maxHp = 100)
    (hE1 : g.player1.maxEnergy = 5) (hE2 : g.player2.maxEnergy = 5)
    (h1hp : 0 ≤ g.player1.hp) (h1hp' : g.player1.hp ≤ 100)
    (h2hp : 0 ≤ g.player2.hp) (h2hp' : g.player2.hp ≤ 100)
    (_h1e : 0 ≤ g.player1.energy) (_h1e' : g.player1.energy ≤ 5)
    (_h2e : 0 ≤ g.player2.energy) (_h2e' : g.player2.energy ≤ 5) :
    (0 ≤ (processActions g a1 a2).1.player1.hp ∧
      (processActions g a1 a2).1.player1.hp ≤ 100) ∧
    (0 ≤ (processActions g a1 a2).1.player2.hp ∧
      (processActions g a1 a2).1.player2.hp ≤ 100) ∧
    (0 ≤ (processActions g a1 a2).1.player1.energy ∧
      (processActions g a1 a2).1.player1.energy ≤ 5) ∧
    (0 ≤ (processActions g a1 a2).1.player2.energy ∧
      (processActions g a1 a2).1.player2.energy ≤ 5) := by
  obtain ⟨ha1, hd1⟩ := executeAction_damage_nonneg g.player1 g.player2 a1
    initResult initResult (by simp [initResult]) (by simp [initResult])
  obtain ⟨ha2, hd2⟩ := executeAction_damage_nonneg g.player2 g.player1 a2
    (executeAction g.player1 g.player2 a1 initResult initResult).dRes
    (executeAction g.player1 g.player2 a1 initResult initResult).aRes hd1 ha1
  have hr1 := applyDefense_damage_nonneg _ hd2
  have hr2 := applyDefense_damage_nonneg _ ha2
  obtain ⟨hhp1, hmh1, hen1, hme1⟩ := executeAction_attacker_fields
    g.player1 g.player2 a1 initResult initResult
  obtain ⟨hhp2, hmh2, hen2, hme2⟩ := executeAction_attacker_fields
    g.player2 g.player1 a2
    (executeAction g.player1 g.player2 a1 initResult initResult).dRes
    (executeAction g.player1 g.player2 a1 initResult initResult).aRes
  simp only [processActions, finishRound, applyEnergy, applyHp]
  simp only [hhp1, hmh1, hen1, hme1, hhp2, hmh2, hen2, hme2, hE1, hE2]
  refine ⟨⟨?_, ?_⟩, ⟨?_, ?_⟩, ⟨?_, ?_⟩, ⟨?_, ?_⟩⟩ <;> omega

/-- C4 witness: a fresh game with attack vs defend keeps both players within
bounds. -/
theorem resource_bounds_witness :
    (0 ≤ (processActions (createNewGame "w4") "attack" "defend").1.player1.hp ∧
      (processActions (createNewGame "w4") "attack" "defend").1.player1.hp ≤ 100) ∧
    (0 ≤ (processActions (createNewGame "w4") "attack" "defend").1.player2.hp ∧
      (processActions (createNewGame "w4") "attack" "defend").1.player2.hp ≤ 100) ∧
    (0 ≤ (processActions (createNewGame "w4") "attack" "defend").1.player1.energy ∧
      (processActions (createNewGame "w4") "attack" "defend").1.player1.energy ≤ 5) ∧
    (0 ≤ (processActions (createNewGame "w4") "attack" "defend").1.player2.energy ∧
      (processActions (createNewGame "w4") "attack" "defend").1.player2.energy ≤ 5) :=
  resource_bounds (createNewGame "w4") "attack" "defend"
    (by decide) (by decide) rfl rfl rfl rfl
    (by decide) (by decide) (by decide) (by decide)
    (by decide) (by decide) (by decide) (by decide)

/-- C10: HP is non-increasing across a round: with any pair of actions, each
player's HP after `processActions` is at most their HP before. -/
theorem hp_non_increasing (g : Game) (a1 a2 : String)
    (h1 : 0 ≤ g.player1.hp) (h2 : 0 ≤ g.player2.hp) :
    (processActions g a1 a2).1.player1.hp ≤ g.player1.hp ∧
    (processActions g a1 a2).1.player2.hp ≤ g.player2.hp := by
  obtain ⟨ha1, hd1⟩ := executeAction_damage_nonneg g.player1 g.player2 a1
    initResult initResult (by simp [initResult]) (by simp [initResult])
  obtain ⟨ha2, hd2⟩ := executeAction_damage_nonneg g.player2 g.player1 a2
    (executeAction g.player1 g.player2 a1 initResult initResult).dRes
    (executeAction g.player1 g.player2 a1 initResult initResult).aRes hd1 ha1
  have hr1 := applyDefense_damage_nonneg _ hd2
  have hr2 := applyDefense_damage_nonneg _ ha2
  have hh1 := executeAction_attacker_hp g.player1 g.player2 a1 initResult initResult
  have hh2 := executeAction_attacker_hp g.player2 g.player1 a2
    (executeAction g.player1 g.player2 a1 initResult initResult).dRes
    (executeAction g.player1 g.player2 a1 initResult initResult).aRes
  simp only [processActions, finishRound, applyEnergy, applyHp]
  constructor <;> simp_all

/-- C10 witness: on a fresh game with mutual attacks, both HPs do not
increase. -/
theorem hp_non_increasing_witness :
    (processActions (createNewGame "g") "attack" "attack").1.player1.hp ≤
      (createNewGame "g").player1.hp ∧
    (processActions (createNewGame "g") "attack" "attack").1.player2.hp ≤
      (createNewGame "g").player2.hp :=
  hp_non_increasing (createNewGame "g") "attack" "attack"
    (by decide) (by decide)

/-- C7: choosing charge with pre-round energy ≥ 2 consumes exactly 2 energy
and sets the charged flag; with energy < 2 both energy and charged flag are
unchanged — for either player, whatever the opponent does. -/
theorem charge_semantics (g : Game) (a1 a2 : String)
    (h1e0 : 0 ≤ g.player1.energy) (h1eM : g.player1.energy ≤ g.player1.maxEnergy)
    (h2e0 : 0 ≤ g.player2.energy) (h2eM : g.player2.energy ≤ g.player2.maxEnergy) :
    (2 ≤ g.player1.energy →
      (processActions g "charge" a2).1.player1.energy = g.player1.energy - 2 ∧
      (processActions g "charge" a2).1.player1.charged = true) ∧
    (g.player1.energy < 2 →
      (processActions g "charge" a2).1.player1.energy = g.player1.energy ∧
      (processActions g "charge" a2).1.player1.charged = g.player1.charged) ∧
    (2 ≤ g.player2.energy →
      (processActions g a1 "charge").1.player2.energy = g.player2.energy - 2 ∧
      (processActions g a1 "charge").1.player2.charged = true) ∧
    (g.player2.energy < 2 →
      (processActions g a1 "charge").1.player2.energy = g.player2.energy ∧
      (processActions g a1 "charge").1.player2.charged = g.player2.charged) := by
  refine ⟨fun h => ?_, fun h => ?_, fun h => ?_, fun h => ?_⟩
  · simp only [processActions, finishRound, applyEnergy, applyHp, strip,
      applyDefense_damage, applyDefense_energyChange, applyDefense_statusChange,
      executeAction_dRes, executeAction_aRes_damage,
      executeAction_aRes_energyChange, executeAction_aRes_statusChange,
      executeAction_aRes_defending, executeAction_attacker_charged,
      executeAction_attacker_energy, executeAction_attacker_maxEnergy,
      executeAction_attacker_hp, apply_ite PlayerResult.damage,
      apply_ite PlayerResult.energyChange, apply_ite PlayerResult.statusChange,
      apply_ite PlayerResult.defending, ite_self, ge_iff_le, String.reduceEq,
      reduceIte, initResult, h, and_true, true_and]
    omega
  · have hn : ¬ (2 ≤ g.player1.energy) := by omega
    simp only [processActions, finishRound, applyEnergy, applyHp, strip,
      applyDefense_damage, applyDefense_energyChange, applyDefense_statusChange,
      executeAction_dRes, executeAction_aRes_damage,
      executeAction_aRes_energyChange, executeAction_aRes_statusChange,
      executeAction_aRes_defending, executeAction_attacker_charged,
      executeAction_attacker_energy, executeAction_attacker_maxEnergy,
      executeAction_attacker_hp, apply_ite PlayerResult.damage,
      apply_ite PlayerResult.energyChange, apply_ite PlayerResult.statusChange,
      apply_ite PlayerResult.defending, ite_self, ge_iff_le, String.reduceEq,
      reduceIte, initResult, hn, and_true, true_and]
    omega
  · simp only [processActions, finishRound, applyEnergy, applyHp, strip,
      applyDefense_damage, applyDefense_energyChange, applyDefense_statusChange,
      executeAction_dRes, executeAction_aRes_damage,
      executeAction_aRes_energyChange, executeAction_aRes_statusChange,
      executeAction_aRes_defending, executeAction_attacker_charged,
      executeAction_attacker_energy, executeAction_attacker_maxEnergy,
      executeAction_attacker_hp, apply_ite PlayerResult.damage,
      apply_ite PlayerResult.energyChange, apply_ite PlayerResult.statusChange,
      apply_ite PlayerResult.defending, ite_self, ge_iff_le, String.reduceEq,
      reduceIte, initResult, h, and_true, true_and]
    omega
  · have hn : ¬ (2 ≤ g.player2.energy) := by omega
    simp only [processActions, finishRound, applyEnergy, applyHp, strip,
      applyDefense_damage, applyDefense_energyChange, applyDefense_statusChange,
      executeAction_dRes, executeAction_aRes_damage,
      executeAction_aRes_energyChange, executeAction_aRes_statusChange,
      executeAction_aRes_defending, executeAction_attacker_charged,
      executeAction_attacker_energy, executeAction_attacker_maxEnergy,
      executeAction_attacker_hp, apply_ite PlayerResult.damage,
      apply_ite PlayerResult.energyChange, apply_ite PlayerResult.statusChange,
      apply_ite PlayerResult.defending, ite_self, ge_iff_le, String.reduceEq,
      reduceIte, initResult, hn, and_true, true_and]
    omega

/-- C7 witness: a fresh player1 (energy 3) charging loses 2 energy and
becomes charged. -/
theorem charge_semantics_witness :
    (processActions (createNewGame "w7") "charge" "defend").1.player1.energy =
      (createNewGame "w7").player1.energy - 2 ∧
    (processActions (createNewGame "w7") "charge" "defend").1.player1.charged =
      true :=
  (charge_semantics (createNewGame "w7") "defend" "defend"
    (by decide) (by decide) (by decide) (by decide)).1 (by decide)

/-- C6: choosing attack with pre-round energy ≥ 1 consumes exactly 1 energy,
stages 25 damage if the attacker was charged (else 15), clears the charged
flag, and emits the distinguishing message; with energy < 1 the attacker's
energy and charged flag and the opponent's HP are unchanged and the message is
"Not enough energy!" — for either player, whatever the opponent does. -/
theorem attack_semantics (g : Game) (a1 a2 : String)
    (h1e0 : 0 ≤ g.player1.energy) (h1eM : g.player1.energy ≤ g.player1.maxEnergy)
    (h2e0 : 0 ≤ g.player2.energy) (h2eM : g.player2.energy ≤ g.player2.maxEnergy)
    (h1hp : 0 ≤ g.player1.hp) (h2hp : 0 ≤ g.player2.hp) :
    (1 ≤ g.player1.energy →
      (processActions g "attack" a2).1.player1.energy = g.player1.energy - 1 ∧
      (processActions g "attack" a2).1.player1.charged = false ∧
      stagedDamage g.player1 g.player2 "attack"
        = (if g.player1.charged then 25 else 15) ∧
      (processActions g "attack" a2).2.player1.statusChange
        = some (if g.player1.charged then "Charged attack!"
                else "Normal attack!")) ∧
    (g.player1.energy < 1 →
      (processActions g "attack" a2).1.player1.energy = g.player1.energy ∧
      (processActions g "attack" a2).1.player1.charged = g.player1.charged ∧
      (processActions g "attack" a2).1.player2.hp = g.player2.hp ∧
      (processActions g "attack" a2).2.player1.statusChange
        = some "Not enough energy!") ∧
    (1 ≤ g.player2.energy →
      (processActions g a1 "attack").1.player2.energy = g.player2.energy - 1 ∧
      (processActions g a1 "attack").1.player2.charged = false ∧
      stagedDamage g.player2 g.player1 "attack"
        = (if g.player2.charged then 25 else 15) ∧
      (processActions g a1 "attack").2.player2.statusChange
        = some (if g.player2.charged then "Charged attack!"
                else "Normal attack!")) ∧
    (g.player2.energy < 1 →
      (processActions g a1 "attack").1.player2.energy = g.player2.energy ∧
      (processActions g a1 "attack").1.player2.charged = g.player2.charged ∧
      (processActions g a1 "attack").1.player1.hp = g.player1.hp ∧
      (processActions g a1 "attack").2.player2.statusChange
        = some "Not enough energy!") := by
  refine ⟨fun h => ?_, fun h => ?_, fun h => ?_, fun h => ?_⟩
  · simp only [processActions, finishRound, applyEnergy, applyHp, strip,
      applyDefense_damage, applyDefense_energyChange, applyDefense_statusChange,
      executeAction_dRes, executeAction_aRes_damage,
      executeAction_aRes_energyChange, executeAction_aRes_statusChange,
      executeAction_aRes_defending, executeAction_attacker_charged,
      executeAction_attacker_energy, executeAction_attacker_maxEnergy,
      executeAction_attacker_hp, stagedDamage, apply_ite PlayerResult.damage,
      apply_ite PlayerResult.energyChange, apply_ite PlayerResult.statusChange,
      apply_ite PlayerResult.defending, ite_self, ge_iff_le, String.reduceEq,
      reduceIte, initResult, h, and_true, true_and, and_false, false_and,
      gt_iff_lt, lt_self_iff_false, sub_zero]
    omega
  · have hn : ¬ (1 ≤ g.player1.energy) := by omega
    simp only [processActions, finishRound, applyEnergy, applyHp, strip,
      applyDefense_damage, applyDefense_energyChange, applyDefense_statusChange,
      executeAction_dRes, executeAction_aRes_damage,
      executeAction_aRes_energyChange, executeAction_aRes_statusChange,
      executeAction_aRes_defending, executeAction_attacker_charged,
      executeAction_attacker_energy, executeAction_attacker_maxEnergy,
      executeAction_attacker_hp, stagedDamage, apply_ite PlayerResult.damage,
      apply_ite PlayerResult.energyChange, apply_ite PlayerResult.statusChange,
      apply_ite PlayerResult.defending, ite_self, ge_iff_le, String.reduceEq,
      reduceIte, initResult, hn, and_true, true_and, and_false, false_and,
      gt_iff_lt, lt_self_iff_false, sub_zero]
    omega
  · simp only [processActions, finishRound, applyEnergy, applyHp, strip,
      applyDefense_damage, applyDefense_energyChange, applyDefense_statusChange,
      executeAction_dRes, executeAction_aRes_damage,
      executeAction_aRes_energyChange, executeAction_aRes_statusChange,
      executeAction_aRes_defending, executeAction_attacker_charged,
      executeAction_attacker_energy, executeAction_attacker_maxEnergy,
      executeAction_attacker_hp, stagedDamage, apply_ite PlayerResult.damage,
      apply_ite PlayerResult.energyChange, apply_ite PlayerResult.statusChange,
      apply_ite PlayerResult.defending, ite_self, ge_iff_le, String.reduceEq,
      reduceIte, initResult, h, and_true, true_and, and_false, false_and,
      gt_iff_lt, lt_self_iff_false, sub_zero]
    omega
  · have hn : ¬ (1 ≤ g.player2.energy) := by omega
    simp only [processActions, finishRound, applyEnergy, applyHp, strip,
      applyDefense_damage, applyDefense_energyChange, applyDefense_statusChange,
      executeAction_dRes, executeAction_aRes_damage,
      executeAction_aRes_energyChange, executeAction_aRes_statusChange,
      executeAction_aRes_defending, executeAction_attacker_charged,
      executeAction_attacker_energy, executeAction_attacker_maxEnergy,
      executeAction_attacker_hp, stagedDamage, apply_ite PlayerResult.damage,
      apply_ite PlayerResult.energyChange, apply_ite PlayerResult.statusChange,
      apply_ite PlayerResult.defending, ite_self, ge_iff_le, String.reduceEq,
      reduceIte, initResult, hn, and_true, true_and, and_false, false_and,
      gt_iff_lt, lt_self_iff_false, sub_zero]
    omega

/-- C6 witness: a fresh player1 (energy 3, not charged) attacking a defender
loses 1 energy, stays uncharged, stages 15 damage, and reports a normal
attack. -/
theorem attack_semantics_witness :
    (processActions (createNewGame "w6") "attack" "defend").1.player1.energy =
      (createNewGame "w6").player1.energy - 1 ∧
    (processActions (createNewGame "w6") "attack" "defend").1.player1.charged =
      false ∧
    stagedDamage (createNewGame "w6").player1 (createNewGame "w6").player2
        "attack"
      = (if (createNewGame "w6").player1.charged then 25 else 15) ∧
    (processActions (createNewGame "w6") "attack" "defend").2.player1.statusChange
      = some (if (createNewGame "w6").player1.charged then "Charged attack!"
              else "Normal attack!") :=
  (attack_semantics (createNewGame "w6") "defend" "defend"
    (by decide) (by decide) (by decide) (by decide)
    (by decide) (by decide)).1 (by decide)

/-- C5: a defender always gains +1 energy capped at max energy; staged damage
directed at a defender is halved with floor division before being applied to
HP (whatever the attacker chose); and a player who did not choose defend takes
the full staged damage — the halving is the only post-hoc adjustment. -/
theorem defend_semantics (g : Game) (a1 a2 : String)
    (h1e : 0 ≤ g.player1.energy) (h2e : 0 ≤ g.player2.energy) :
    ((processActions g "defend" a2).1.player1.energy
        = min g.player1.maxEnergy (g.player1.energy + 1) ∧
      (processActions g "defend" a2).2.player1.damage
        = stagedDamage g.player2 g.player1 a2 / 2 ∧
      (processActions g "defend" a2).1.player1.hp
        = max 0 (g.player1.hp - stagedDamage g.player2 g.player1 a2 / 2)) ∧
    ((processActions g a1 "defend").1.player2.energy
        = min g.player2.maxEnergy (g.player2.energy + 1) ∧
      (processActions g a1 "defend").2.player2.damage
        = stagedDamage g.player1 g.player2 a1 / 2 ∧
      (processActions g a1 "defend").1.player2.hp
        = max 0 (g.player2.hp - stagedDamage g.player1 g.player2 a1 / 2)) ∧
    (a1 ≠ "defend" →
      (processActions g a1 a2).2.player1.damage
        = stagedDamage g.player2 g.player1 a2 ∧
      (processActions g a1 a2).1.player1.hp
        = max 0 (g.player1.hp - stagedDamage g.player2 g.player1 a2)) ∧
    (a2 ≠ "defend" →
      (processActions g a1 a2).2.player2.damage
        = stagedDamage g.player1 g.player2 a1 ∧
      (processActions g a1 a2).1.player2.hp
        = max 0 (g.player2.hp - stagedDamage g.player1 g.player2 a1)) := by
  refine ⟨?_, ?_, fun h => ?_, fun h => ?_⟩
  · simp only [processActions, finishRound, applyEnergy, applyHp, strip,
      applyDefense_damage, applyDefense_energyChange, applyDefense_statusChange,
      executeAction_dRes, executeAction_aRes_damage,
      executeAction_aRes_energyChange, executeAction_aRes_statusChange,
      executeAction_aRes_defending, executeAction_attacker_charged,
      executeAction_attacker_energy, executeAction_attacker_maxEnergy,
      executeAction_attacker_hp, stagedDamage, apply_ite PlayerResult.damage,
      apply_ite PlayerResult.energyChange, apply_ite PlayerResult.statusChange,
      apply_ite PlayerResult.defending, ite_self, ge_iff_le, String.reduceEq,
      reduceIte, initResult, and_true, true_and, and_false, false_and,
      Bool.false_eq_true, gt_iff_lt, lt_self_iff_false, sub_zero]
    split_ifs <;> omega
  · simp only [processActions, finishRound, applyEnergy, applyHp, strip,
      applyDefense_damage, applyDefense_energyChange, applyDefense_statusChange,
      executeAction_dRes, executeAction_aRes_damage,
      executeAction_aRes_energyChange, executeAction_aRes_statusChange,
      executeAction_aRes_defending, executeAction_attacker_charged,
      executeAction_attacker_energy, executeAction_attacker_maxEnergy,
      executeAction_attacker_hp, stagedDamage, apply_ite PlayerResult.damage,
      apply_ite PlayerResult.energyChange, apply_ite PlayerResult.statusChange,
      apply_ite PlayerResult.defending, ite_self, ge_iff_le, String.reduceEq,
      reduceIte, initResult, and_true, true_and, and_false, false_and,
      Bool.false_eq_true, gt_iff_lt, lt_self_iff_false, sub_zero]
    split_ifs <;> omega
  · simp only [processActions, finishRound, applyEnergy, applyHp, strip,
      applyDefense_damage, applyDefense_energyChange, applyDefense_statusChange,
      executeAction_dRes, executeAction_aRes_damage,
      executeAction_aRes_energyChange, executeAction_aRes_statusChange,
      executeAction_aRes_defending, executeAction_attacker_charged,
      executeAction_attacker_energy, executeAction_attacker_maxEnergy,
      executeAction_attacker_hp, stagedDamage, apply_ite PlayerResult.damage,
      apply_ite PlayerResult.energyChange, apply_ite PlayerResult.statusChange,
      apply_ite PlayerResult.defending, ite_self, ge_iff_le, String.reduceEq,
      reduceIte, initResult, and_true, true_and, and_false, false_and,
      Bool.false_eq_true, gt_iff_lt, lt_self_iff_false, sub_zero, h]
  · simp only [processActions, finishRound, applyEnergy, applyHp, strip,
      applyDefense_damage, applyDefense_energyChange, applyDefense_statusChange,
      executeAction_dRes, executeAction_aRes_damage,
      executeAction_aRes_energyChange, executeAction_aRes_statusChange,
      executeAction_aRes_defending, executeAction_attacker_charged,
      executeAction_attacker_energy, executeAction_attacker_maxEnergy,
      executeAction_attacker_hp, stagedDamage, apply_ite PlayerResult.damage,
      apply_ite PlayerResult.energyChange, apply_ite PlayerResult.statusChange,
      apply_ite PlayerResult.defending, ite_self, ge_iff_le, String.reduceEq,
      reduceIte, initResult, and_true, true_and, and_false, false_and,
      Bool.false_eq_true, gt_iff_lt, lt_self_iff_false, sub_zero, h]

/-- C5 witness: fresh players, player1 defends against an attack: energy
3 → 4 (capped at 5), incoming 15 staged damage halved to 7, HP 100 → 93. -/
theorem defend_semantics_witness :
    (processActions (createNewGame "w5") "defend" "attack").1.player1.energy
        = min (createNewGame "w5").player1.maxEnergy
            ((createNewGame "w5").player1.energy + 1) ∧
    (processActions (createNewGame "w5") "defend" "attack").2.player1.damage
        = stagedDamage (createNewGame "w5").player2 (createNewGame "w5").player1
            "attack" / 2 ∧
    (processActions (createNewGame "w5") "defend" "attack").1.player1.hp
        = max 0 ((createNewGame "w5").player1.hp -
            stagedDamage (createNewGame "w5").player2 (createNewGame "w5").player1
              "attack" / 2) :=
  (defend_semantics (createNewGame "w5") "attack" "attack"
    (by decide) (by decide)).1

/-- C2: an action outside the attack/defend/charge enum resolves to the
"Invalid action!" status message and has no effect attributable to it: no
energy delta, no staged damage against the opponent, and that player's energy
and charged flag and the opponent's HP are unchanged. -/
theorem invalid_action_no_effect (g : Game) (a1 a2 : String)
    (h1e : 0 ≤ g.player1.energy) (h1eM : g.player1.energy ≤ g.player1.maxEnergy)
    (h2e : 0 ≤ g.player2.energy) (h2eM : g.player2.energy ≤ g.player2.maxEnergy)
    (h1hp : 0 ≤ g.player1.hp) (h2hp : 0 ≤ g.player2.hp) :
    (a1 ∉ validActions →
      (processActions g a1 a2).2.player1.statusChange = some "Invalid action!" ∧
      (processActions g a1 a2).2.player1.energyChange = 0 ∧
      (processActions g a1 a2).2.player2.damage = 0 ∧
      (processActions g a1 a2).1.player1.energy = g.player1.energy ∧
      (processActions g a1 a2).1.player1.charged = g.player1.charged ∧
      (processActions g a1 a2).1.player2.hp = g.player2.hp) ∧
    (a2 ∉ validActions →
      (processActions g a1 a2).2.player2.statusChange = some "Invalid action!" ∧
      (processActions g a1 a2).2.player2.energyChange = 0 ∧
      (processActions g a1 a2).2.player1.damage = 0 ∧
      (processActions g a1 a2).1.player2.energy = g.player2.energy ∧
      (processActions g a1 a2).1.player2.charged = g.player2.charged ∧
      (processActions g a1 a2).1.player1.hp = g.player1.hp) := by
  refine ⟨fun h => ?_, fun h => ?_⟩ <;>
    simp only [validActions, List.mem_cons, List.mem_singleton,
      List.not_mem_nil, or_false, not_or] at h <;>
    obtain ⟨hA, hD, hC⟩ := h
  · simp only [processActions, finishRound, applyEnergy, applyHp, strip,
      applyDefense_damage, applyDefense_energyChange, applyDefense_statusChange,
      executeAction_dRes, executeAction_aRes_damage,
      executeAction_aRes_energyChange, executeAction_aRes_statusChange,
      executeAction_aRes_defending, executeAction_attacker_charged,
      executeAction_attacker_energy, executeAction_attacker_maxEnergy,
      executeAction_attacker_hp, stagedDamage, apply_ite PlayerResult.damage,
      apply_ite PlayerResult.energyChange, apply_ite PlayerResult.statusChange,
      apply_ite PlayerResult.defending, ite_self, ge_iff_le, String.reduceEq,
      reduceIte, initResult, and_true, true_and, and_false, false_and,
      Bool.false_eq_true, gt_iff_lt, lt_self_iff_false, sub_zero, hA, hD, hC]
    omega
  · simp only [processActions, finishRound, applyEnergy, applyHp, strip,
      applyDefense_damage, applyDefense_energyChange, applyDefense_statusChange,
      executeAction_dRes, executeAction_aRes_damage,
      executeAction_aRes_energyChange, executeAction_aRes_statusChange,
      executeAction_aRes_defending, executeAction_attacker_charged,
      executeAction_attacker_energy, executeAction_attacker_maxEnergy,
      executeAction_attacker_hp, stagedDamage, apply_ite PlayerResult.damage,
      apply_ite PlayerResult.energyChange, apply_ite PlayerResult.statusChange,
      apply_ite PlayerResult.defending, ite_self, ge_iff_le, String.reduceEq,
      reduceIte, initResult, and_true, true_and, and_false, false_and,
      Bool.false_eq_true, gt_iff_lt, lt_self_iff_false, sub_zero, hA, hD, hC]
    omega

/-- C2 witness: player1 submitting the out-of-enum action "fireball" gets the
invalid-action message and changes nothing attributable to it. -/
theorem invalid_action_no_effect_witness :
    (processActions (createNewGame "w2") "fireball" "attack").2.player1.statusChange
        = some "Invalid action!" ∧
    (processActions (createNewGame "w2") "fireball" "attack").2.player1.energyChange
        = 0 ∧
    (processActions (createNewGame "w2") "fireball" "attack").2.player2.damage
        = 0 ∧
    (processActions (createNewGame "w2") "fireball" "attack").1.player1.energy
        = (createNewGame "w2").player1.energy ∧
    (processActions (createNewGame "w2") "fireball" "attack").1.player1.charged
        = (createNewGame "w2").player1.charged ∧
    (processActions (createNewGame "w2") "fireball" "attack").1.player2.hp
        = (createNewGame "w2").player2.hp :=
  (invalid_action_no_effect (createNewGame "w2") "fireball" "attack"
    (by decide) (by decide) (by decide) (by decide)
    (by decide) (by decide)).1 (by decide)

/-- C9: the action-submission handler returns NotFound for an unknown game
id, GameNotActive for a non-active game, and the invalid-input outcomes for a
missing (falsy) action or an action outside the enum — and in each of these
cases the store of games is returned unchanged (the engine is not invoked). -/
theorem submit_validation (games : List (String × Game)) (gameId : String)
    (a1 a2 : Option String) :
    (games.lookup gameId = none →
      submitActions games gameId a1 a2 = (SubmitResult.notFound, games)) ∧
    (∀ g, games.lookup gameId = some g →
      (g.gameStatus ≠ "active" →
        submitActions games gameId a1 a2 = (SubmitResult.gameNotActive, games)) ∧
      (g.gameStatus = "active" → (isFalsy a1 || isFalsy a2) = true →
        submitActions games gameId a1 a2 =
          (SubmitResult.missingActions, games)) ∧
      (g.gameStatus = "active" → (isFalsy a1 || isFalsy a2) = false →
        (a1.getD "" ∉ validActions ∨ a2.getD "" ∉ validActions) →
        submitActions games gameId a1 a2 =
          (SubmitResult.invalidAction, games))) := by
  refine ⟨fun hn => ?_,
    fun g hg => ⟨fun hs => ?_, fun hs hf => ?_, fun hs hf hv => ?_⟩⟩
  · simp [submitActions, hn]
  · simp [submitActions, hg, hs]
  · simp [submitActions, hg, hs, hf]
  · have hcond : (a1.getD "" ∉ validActions ∨ a2.getD "" ∉ validActions) = True :=
      eq_true hv
    simp [submitActions, hg, hs, hf, hcond]

/-- C9 witness: submitting to an empty store yields NotFound and leaves the
store unchanged. -/
theorem submit_validation_witness :
    submitActions [] "g1" (some "attack") (some "attack") =
      (SubmitResult.notFound, []) :=
  (submit_validation [] "g1" (some "attack") (some "attack")).1 rfl

end CodeDuel
